import Mathlib

/-!
Verification of the dma-vtt backend (Flask + SQLAlchemy virtual tabletop).

Shallow embedding of `src/dma_vtt/database.py` (relational rows),
`src/dma_vtt/auth.py` (authentication) and `src/dma_vtt/server.py`
(HTTP routes and WebSocket handlers).  The relational store is a record of
row lists; SQLAlchemy autoincrement primary keys are modelled by explicit
`next…Id` counters.  The GM role is spelled `"admin"` exactly as in the code.
Numeric columns (`Float` positions, scales, rotations) are modelled as `Int`:
the verified operations only store, copy and compare these values, never
compute with them.
-/

namespace DmaVtt

/-- Row of the `users` table (database.py, class User). -/
structure User where
  id : Nat
  username : String
  password_hash : String
  role : String            -- 'admin' or 'player'
  registered_by : Option Nat
deriving Repr, DecidableEq

/-- Row of the `scenes` table (database.py, class Scene). -/
structure Scene where
  id : Nat
  name : String
  thumbnail_path : Option String
  active : Bool
  owner_id : Nat
  background_layer_id : Option Nat
  foreground_layer_id : Option Nat
deriving Repr, DecidableEq

/-- Row of the `layers` table (database.py, class Layer). -/
structure Layer where
  id : Nat
  scene_id : Nat
  name : String
  order_index : Nat
  type : String            -- 'background', 'player', 'custom'
  visible : Bool
deriving Repr, DecidableEq

/-- Row of the `tokens` table (database.py, class Token). -/
structure Token where
  id : Nat
  layer_id : Nat
  image_path : String
  x : Int
  y : Int
  scale : Int
  rotation : Int
  z_index : Int
  metadata : Option String
deriving Repr, DecidableEq

/-- Row of the `drawings` table (database.py, class Drawing).
`layer_id` is `Option Nat` because the in-memory ORM object holds whatever
`data.get('layer_id')` returned, which may be Python `None`; the column is
declared `nullable=False` with a foreign key to `layers.id`, which the
database enforces at commit (see `drawingCommitOk`). -/
structure Drawing where
  id : Nat
  layer_id : Option Nat
  type : String
  points : List (Int × Int)
  color : String
  stroke_width : Int
deriving Repr, DecidableEq

/-- Row of the `text_elements` table (database.py, class TextElement). -/
structure TextElement where
  id : Nat
  layer_id : Option Nat
  x : Int
  y : Int
  text : String
  font_size : Nat
  color : String
  style : String
deriving Repr, DecidableEq

/-- The relational store shared by all handlers, with autoincrement
counters for the tables whose inserts the verified handlers perform. -/
structure Store where
  scenes : List Scene
  layers : List Layer
  tokens : List Token
  drawings : List Drawing
  texts : List TextElement
  nextSceneId : Nat
  nextLayerId : Nat
  nextDrawingId : Nat
  nextTextId : Nat
deriving Repr, DecidableEq

/-- Payload of a `token_moved` WebSocket event.  `token_id`, `rotation` and
`scale` are read with `data.get(...)` and may be absent; `x`/`y` are the
event's position fields. -/
structure MovePayload where
  token_id : Option Nat
  x : Int
  y : Int
  rotation : Option Int
  scale : Option Int
deriving Repr, DecidableEq

/-- Payload of a `drawing_created` WebSocket event. -/
structure DrawingPayload where
  layer_id : Option Nat
  type : String
  points : List (Int × Int)
  color : String
  stroke_width : Int
deriving Repr, DecidableEq

/-- Payload of a `text_created` WebSocket event. -/
structure TextPayload where
  layer_id : Option Nat
  x : Int
  y : Int
  text : String
  font_size : Nat
  color : String
  style : String
deriving Repr, DecidableEq

/-- Data carried by a `socketio.emit` call. -/
inductive EmitData where
  | tokenMoved (p : MovePayload)
  | drawingCreated (p : DrawingPayload) (id : Nat)
  | textCreated (p : TextPayload) (id : Nat)
  | sceneActivated (scene_id : Nat) (name : String)
deriving Repr, DecidableEq

/-- One `socketio.emit(event, data, skip_sid=...)` call; `skip_sid = some s`
means every connected client except `s` receives it. -/
structure Emit where
  data : EmitData
  skip_sid : Option Nat
deriving Repr, DecidableEq

/-- `token.x = x; token.y = y; if rotation is not None: ...;
if scale is not None: ...` — the field updates `handle_token_moved`
applies to the fetched token. -/
def moveUpdate (p : MovePayload) (t : Token) : Token :=
  { t with
    x := p.x
    y := p.y
    rotation := match p.rotation with | some r => r | none => t.rotation
    scale := match p.scale with | some s => s | none => t.scale }

/-- Mutating the single ORM object fetched by primary key: replace the first
row with the given id. -/
def updateFirst (l : List Token) (tid : Nat) (f : Token → Token) : List Token :=
  match l with
  | [] => []
  | t :: ts => if t.id == tid then f t :: ts else t :: updateFirst ts tid f

/-- `@socketio.on('token_moved')` handler (server.py, handle_token_moved).
Returns the store after the handler and the list of emits it performed;
`sid` is the sender's socket id (`request.sid`). -/
def handle_token_moved (store : Store) (p : MovePayload) (sid : Nat) :
    Store × List Emit :=
  match p.token_id with
  | none => (store, [])
  | some tid =>
    match store.tokens.find? (fun t => t.id == tid) with
    | none => (store, [])
    | some _ =>
      ({ store with tokens := updateFirst store.tokens tid (moveUpdate p) },
       [⟨.tokenMoved p, some sid⟩])

/-- `Token.query.get(token_id)` where `token_id` may be Python `None`. -/
def lookupToken (store : Store) (tid? : Option Nat) : Option Token :=
  match tid? with
  | none => none
  | some tid => store.tokens.find? (fun t => t.id == tid)

/-- `Layer.query.get(layer_id)` for an optional id (never called by the
handlers themselves; used only to state which inputs refer to no layer). -/
def lookupLayer (store : Store) (lid? : Option Nat) : Option Layer :=
  match lid? with
  | none => none
  | some lid => store.layers.find? (fun l => l.id == lid)

/-- The error `db.session.commit()` raises when a row violates a schema
constraint; it propagates out of the WebSocket handler unhandled, so the
pending insert is not persisted and the emit after the commit never runs. -/
inductive DbError where
  | integrityError
deriving Repr, DecidableEq

/-- Commit-time constraint check for a Drawing row: database.py line 144
declares `layer_id = Column(Integer, ForeignKey('layers.id'),
nullable=False)`, and the configured PostgreSQL backend enforces both the
NOT NULL and the foreign key, so the commit succeeds only when the row's
`layer_id` is present and references an existing layer. -/
def drawingCommitOk (store : Store) (d : Drawing) : Bool :=
  match d.layer_id with
  | none => false
  | some lid => (store.layers.find? (fun l => l.id == lid)).isSome

/-- Commit-time constraint check for a TextElement row: database.py line
167 declares the same `nullable=False` foreign-key column `layer_id`. -/
def textCommitOk (store : Store) (t : TextElement) : Bool :=
  match t.layer_id with
  | none => false
  | some lid => (store.layers.find? (fun l => l.id == lid)).isSome

/-- `@socketio.on('drawing_created')` handler (server.py,
handle_drawing_created): build a Drawing from the payload fields with no
application-level lookup of `layer_id`, then `db.session.add` and
`db.session.commit`.  A commit that satisfies the schema constraints
persists the row, after which the payload plus the fresh id is emitted to
everyone but the sender; a constraint violation raises IntegrityError out
of the handler — nothing persisted, nothing emitted. -/
def handle_drawing_created (store : Store) (p : DrawingPayload) (sid : Nat) :
    Except DbError (Store × List Emit) :=
  let drawing : Drawing :=
    { id := store.nextDrawingId
      layer_id := p.layer_id
      type := p.type
      points := p.points
      color := p.color
      stroke_width := p.stroke_width }
  if drawingCommitOk store drawing then
    .ok ({ store with
            drawings := store.drawings ++ [drawing]
            nextDrawingId := store.nextDrawingId + 1 },
         [⟨.drawingCreated p drawing.id, some sid⟩])
  else
    .error .integrityError

/-- `@socketio.on('text_created')` handler (server.py, handle_text_created):
symmetric to `handle_drawing_created` for TextElement. -/
def handle_text_created (store : Store) (p : TextPayload) (sid : Nat) :
    Except DbError (Store × List Emit) :=
  let textElement : TextElement :=
    { id := store.nextTextId
      layer_id := p.layer_id
      x := p.x
      y := p.y
      text := p.text
      font_size := p.font_size
      color := p.color
      style := p.style }
  if textCommitOk store textElement then
    .ok ({ store with
            texts := store.texts ++ [textElement]
            nextTextId := store.nextTextId + 1 },
         [⟨.textCreated p textElement.id, some sid⟩])
  else
    .error .integrityError

/-! ### Scene routes -/

/-- An HTTP error response: status code and `{message: ...}` body.  The
`404` raised by `get_or_404` carries Flask's default "Not Found" body. -/
structure HttpError where
  status : Nat
  message : String
deriving Repr, DecidableEq

/-- The `scene.layers` relationship: layers whose `scene_id` is the scene's
primary key, in table order. -/
def sceneLayers (store : Store) (scene_id : Nat) : List Layer :=
  store.layers.filter (fun l => l.scene_id == scene_id)

/-- The `layer.tokens` relationship. -/
def layerTokens (store : Store) (l : Layer) : List Token :=
  store.tokens.filter (fun t => t.layer_id == l.id)

/-- The `layer.drawings` relationship. -/
def layerDrawings (store : Store) (l : Layer) : List Drawing :=
  store.drawings.filter (fun d => d.layer_id == some l.id)

/-- The `layer.text_elements` relationship. -/
def layerTexts (store : Store) (l : Layer) : List TextElement :=
  store.texts.filter (fun t => t.layer_id == some l.id)

/-- The guard `layer.type == 'player' or request.user_role == 'admin'`
deciding whether `get_scene` serialises a layer's child elements. -/
def includeChildren (role : String) (l : Layer) : Bool :=
  l.type == "player" || role == "admin"

/-- One entry of the `layers` array in the `get_scene` response.  The three
child keys are `Option`s: `none` models the dict keys being absent (the
serialisation loop only assigns them when `includeChildren` holds). -/
structure LayerData where
  id : Nat
  name : String
  order_index : Nat
  type : String
  visible : Bool
  tokens : Option (List Token)
  drawings : Option (List Drawing)
  text_elements : Option (List TextElement)
deriving Repr, DecidableEq

/-- Body of the loop over `scene.layers` in `get_scene`. -/
def buildLayerData (store : Store) (role : String) (l : Layer) : LayerData :=
  { id := l.id
    name := l.name
    order_index := l.order_index
    type := l.type
    visible := l.visible
    tokens := if includeChildren role l then some (layerTokens store l) else none
    drawings := if includeChildren role l then some (layerDrawings store l) else none
    text_elements := if includeChildren role l then some (layerTexts store l) else none }

/-- The `scene` object of a successful `GET /api/scenes/{id}` response. -/
structure SceneDetail where
  id : Nat
  name : String
  thumbnail_path : Option String
  active : Bool
  layers : List LayerData
deriving Repr, DecidableEq

/-- `GET /api/scenes/<scene_id>` (server.py, get_scene), after the
`login_required` decorator has attached `request.user_role = role`. -/
def get_scene (store : Store) (role : String) (scene_id : Nat) :
    Except HttpError SceneDetail :=
  match store.scenes.find? (fun s => s.id == scene_id) with
  | none => .error ⟨404, "Not Found"⟩
  | some scene =>
    if role != "admin" && !scene.active then
      .error ⟨404, "Scene not found"⟩
    else
      .ok { id := scene.id
            name := scene.name
            thumbnail_path := scene.thumbnail_path
            active := scene.active
            layers := (sceneLayers store scene.id).map (buildLayerData store role) }

/-- `scene.active = True` on the single ORM object fetched by primary key:
set the active flag on the first row with the given id. -/
def setFirstActive (l : List Scene) (sid : Nat) : List Scene :=
  match l with
  | [] => []
  | s :: ss =>
    if s.id == sid then { s with active := true } :: ss
    else s :: setFirstActive ss sid

/-- `POST /api/scenes/<scene_id>/activate` (server.py, activate_scene):
404 if the scene does not exist; otherwise `Scene.query.update({'active':
False})` then `scene.active = True`, then a `scene_activated` broadcast to
all clients (no `skip_sid`). -/
def activate_scene (store : Store) (scene_id : Nat) : Store × List Emit :=
  match store.scenes.find? (fun s => s.id == scene_id) with
  | none => (store, [])
  | some scene =>
    let cleared := store.scenes.map (fun s => { s with active := false })
    ({ store with scenes := setFirstActive cleared scene_id },
     [⟨.sceneActivated scene.id scene.name, none⟩])

/-- `POST /api/scenes` (server.py, create_scene) as an `admin` caller with
user id `user_id`: reject an empty (falsy) name with 400, otherwise insert
the scene and its three default layers and wire the background/foreground
references. -/
def create_scene (store : Store) (name : String) (user_id : Nat) :
    Except HttpError (Scene × Store) :=
  if name = "" then .error ⟨400, "Scene name is required"⟩
  else
    let background_layer : Layer :=
      { id := store.nextLayerId
        scene_id := store.nextSceneId
        name := "Background"
        order_index := 0
        type := "background"
        visible := true }
    let player_layer : Layer :=
      { id := store.nextLayerId + 1
        scene_id := store.nextSceneId
        name := "Player"
        order_index := 1
        type := "player"
        visible := true }
    let foreground_layer : Layer :=
      { id := store.nextLayerId + 2
        scene_id := store.nextSceneId
        name := "Foreground"
        order_index := 2
        type := "custom"
        visible := true }
    let scene : Scene :=
      { id := store.nextSceneId
        name := name
        thumbnail_path := none
        active := false
        owner_id := user_id
        background_layer_id := some background_layer.id
        foreground_layer_id := some foreground_layer.id }
    .ok (scene,
      { store with
          scenes := store.scenes ++ [scene]
          layers := store.layers ++ [background_layer, player_layer, foreground_layer]
          nextSceneId := store.nextSceneId + 1
          nextLayerId := store.nextLayerId + 3 })

/-! ### Authentication (auth.py) -/

/-- The claims `generate_jwt` embeds that matter to callers (subject id and
role; signing and expiry are outside the model). -/
structure TokenPayload where
  sub : Nat
  role : String
deriving Repr, DecidableEq

/-- `authenticate_user(username, password)` (auth.py): look the user up by
username and verify the password against the stored hash.  Argon2
verification is abstracted as the parameter `verify`, applied exactly where
`verify_password(password, user.password_hash)` is called. -/
def authenticate_user (verify : String → String → Bool) (users : List User)
    (username password : String) : Option (User × TokenPayload) :=
  match users.find? (fun u => u.username == username) with
  | some user =>
    if verify password user.password_hash then
      some (user, { sub := user.id, role := user.role })
    else
      none
  | none => none

/-- Body of a login response. -/
inductive LoginBody where
  | failure (message : String)
  | success (token : TokenPayload) (id : Nat) (username : String) (role : String)
deriving Repr, DecidableEq

/-- `POST /api/auth/login` (server.py, login): 400 when either field is
falsy (absent or empty), 401 on authentication failure, 200 with token and
user otherwise. -/
def login (verify : String → String → Bool) (users : List User)
    (username password : String) : Nat × LoginBody :=
  if username = "" ∨ password = "" then
    (400, .failure "Username and password are required")
  else
    match authenticate_user verify users username password with
    | none => (401, .failure "Invalid credentials")
    | some (user, token) => (200, .success token user.id user.username user.role)

/-! ### Concrete fixtures -/

/-- A token on the player layer of the demo store. -/
def demoToken : Token :=
  { id := 5, layer_id := 2, image_path := "goblin.png", x := 0, y := 0,
    scale := 1, rotation := 0, z_index := 0, metadata := none }

/-- A small concrete store: one active scene with the three default
layers and one token on the player layer. -/
def demoStore : Store :=
  { scenes := [{ id := 1, name := "Dungeon", thumbnail_path := none,
                 active := true, owner_id := 1,
                 background_layer_id := some 1, foreground_layer_id := some 3 }]
    layers := [
      { id := 1, scene_id := 1, name := "Background", order_index := 0,
        type := "background", visible := true },
      { id := 2, scene_id := 1, name := "Player", order_index := 1,
        type := "player", visible := true },
      { id := 3, scene_id := 1, name := "Foreground", order_index := 2,
        type := "custom", visible := true }]
    tokens := [demoToken]
    drawings := []
    texts := []
    nextSceneId := 2, nextLayerId := 4, nextDrawingId := 1, nextTextId := 1 }

/-! ### Helper lemmas about `updateFirst` -/

lemma map_if_id_of_not_mem (l : List Token) (tid : Nat) (f : Token → Token)
    (h : ∀ u ∈ l, u.id ≠ tid) :
    l.map (fun t => if t.id = tid then f t else t) = l := by
  induction l with
  | nil => rfl
  | cons t ts ih =>
    simp only [List.map_cons]
    rw [if_neg (h t (List.mem_cons_self t ts)), ih (fun u hu => h u (List.mem_cons_of_mem t hu))]

lemma updateFirst_eq_map_of_nodup (l : List Token) (tid : Nat) (f : Token → Token)
    (hnd : (l.map Token.id).Nodup) :
    updateFirst l tid f = l.map (fun t => if t.id = tid then f t else t) := by
  induction l with
  | nil => rfl
  | cons t ts ih =>
    rw [List.map_cons, List.nodup_cons] at hnd
    by_cases h : t.id = tid
    · rw [updateFirst, if_pos (by simpa using h), List.map_cons, if_pos h]
      rw [map_if_id_of_not_mem ts tid f]
      intro u hu
      intro huid
      exact hnd.1 (h ▸ huid ▸ List.mem_map_of_mem Token.id hu)
    · rw [updateFirst, if_neg (by simpa using h), List.map_cons, if_neg h, ih hnd.2]

lemma find?_updateFirst_same (l : List Token) (tid : Nat) (f : Token → Token)
    (hf : ∀ t, (f t).id = t.id) :
    (updateFirst l tid f).find? (fun t => t.id == tid) =
      (l.find? (fun t => t.id == tid)).map f := by
  induction l with
  | nil => rfl
  | cons t ts ih =>
    by_cases h : t.id = tid
    · rw [updateFirst, if_pos (by simpa using h)]
      rw [List.find?_cons_of_pos _ (by simp [hf t, h]),
          List.find?_cons_of_pos _ (by simp [h])]
      rfl
    · rw [updateFirst, if_neg (by simpa using h)]
      rw [List.find?_cons_of_neg _ (by simp [h]),
          List.find?_cons_of_neg _ (by simp [h]), ih]

lemma updateFirst_comp (l : List Token) (tid : Nat) (f g : Token → Token)
    (hf : ∀ t, (f t).id = t.id) :
    updateFirst (updateFirst l tid f) tid g =
      updateFirst l tid (fun t => g (f t)) := by
  induction l with
  | nil => rfl
  | cons t ts ih =>
    by_cases h : t.id = tid
    · rw [updateFirst, if_pos (by simpa using h), updateFirst,
          if_pos (by simp [hf t, h]), updateFirst, if_pos (by simpa using h)]
    · rw [updateFirst, if_neg (by simpa using h), updateFirst,
          if_neg (by simpa using h), updateFirst, if_neg (by simpa using h), ih]

lemma moveUpdate_id_eq (p : MovePayload) (t : Token) : (moveUpdate p t).id = t.id := rfl

lemma moveUpdate_idem (p : MovePayload) (t : Token) :
    moveUpdate p (moveUpdate p t) = moveUpdate p t := by
  rcases p with ⟨tid?, x, y, r, s⟩
  cases r <;> cases s <;> rfl

lemma moveUpdate_eq_getD (p : MovePayload) (t : Token) :
    moveUpdate p t =
      { t with
        x := p.x
        y := p.y
        rotation := p.rotation.getD t.rotation
        scale := p.scale.getD t.scale } := by
  rcases p with ⟨tid?, x, y, r, s⟩
  cases r <;> cases s <;> rfl

/-! ### Claims about the `token_moved` handler -/

/-- C4: a `token_moved` event whose `token_id` identifies no existing token
is a silent no-op: the handler returns without error, performs no emit, and
leaves the store untouched. -/
theorem C4_token_moved_missing_id_silent_noop (store : Store) (p : MovePayload)
    (sid : Nat) (h : lookupToken store p.token_id = none) :
    handle_token_moved store p sid = (store, []) := by
  rcases p with ⟨tid?, x, y, r, s⟩
  cases tid? with
  | none => rfl
  | some tid =>
    rw [lookupToken] at h
    rw [handle_token_moved]
    simp only [h]

theorem C4_witness :
    lookupToken demoStore (MovePayload.mk (some 99) 10 20 none none).token_id = none ∧
      handle_token_moved demoStore ⟨some 99, 10, 20, none, none⟩ 7 = (demoStore, []) :=
  ⟨by decide,
   C4_token_moved_missing_id_silent_noop demoStore ⟨some 99, 10, 20, none, none⟩ 7 (by decide)⟩

/-- C5: a `token_moved` event on an existing token always overwrites the
token's `x` and `y` from the payload, overwrites `rotation`/`scale` only
when present (absent fields keep their stored value), leaves the token's
remaining fields intact, and changes no other row of the store. -/
theorem C5_token_moved_partial_update (store : Store) (p : MovePayload)
    (sid tid : Nat) (tok : Token)
    (hid : p.token_id = some tid)
    (hfind : store.tokens.find? (fun t => t.id == tid) = some tok)
    (hnd : (store.tokens.map Token.id).Nodup) :
    (handle_token_moved store p sid).1 =
      { store with tokens := store.tokens.map (fun t =>
          if t.id = tid then
            { t with
              x := p.x
              y := p.y
              rotation := p.rotation.getD t.rotation
              scale := p.scale.getD t.scale }
          else t) } := by
  rw [handle_token_moved, hid]
  simp only [hfind]
  rw [updateFirst_eq_map_of_nodup store.tokens tid (moveUpdate p) hnd]
  congr 1
  apply List.map_congr_left
  intro t _
  by_cases h : t.id = tid
  · rw [if_pos h, if_pos h, moveUpdate_eq_getD]
  · rw [if_neg h, if_neg h]

theorem C5_witness :
    (handle_token_moved demoStore ⟨some 5, 10, 20, none, some 2⟩ 7).1 =
      { demoStore with tokens := demoStore.tokens.map (fun t =>
          if t.id = 5 then
            { t with
              x := (10 : Int)
              y := (20 : Int)
              rotation := (none : Option Int).getD t.rotation
              scale := (some (2 : Int)).getD t.scale }
          else t) } :=
  C5_token_moved_partial_update demoStore ⟨some 5, 10, 20, none, some 2⟩ 7 5 demoToken
    rfl (by decide) (by decide)

/-- C8: applying the same `token_moved` event twice to a store holding the
target token leaves the store exactly as after the first application. -/
theorem C8_token_moved_idempotent (store : Store) (p : MovePayload)
    (sid tid : Nat) (tok : Token)
    (hid : p.token_id = some tid)
    (hfind : store.tokens.find? (fun t => t.id == tid) = some tok) :
    (handle_token_moved (handle_token_moved store p sid).1 p sid).1 =
      (handle_token_moved store p sid).1 := by
  have hstep : (handle_token_moved store p sid).1 =
      { store with tokens := updateFirst store.tokens tid (moveUpdate p) } := by
    rw [handle_token_moved, hid]
    simp only [hfind]
  rw [hstep]
  rw [handle_token_moved, hid]
  have hfind2 : (updateFirst store.tokens tid (moveUpdate p)).find?
      (fun t => t.id == tid) = some (moveUpdate p tok) := by
    rw [find?_updateFirst_same store.tokens tid (moveUpdate p) (moveUpdate_id_eq p),
        hfind]
    rfl
  simp only [hfind2]
  have hcomp := updateFirst_comp store.tokens tid (moveUpdate p) (moveUpdate p)
    (moveUpdate_id_eq p)
  simp only [hcomp]
  have : (fun t => moveUpdate p (moveUpdate p t)) = moveUpdate p := by
    funext t
    exact moveUpdate_idem p t
  rw [this]

theorem C8_witness :
    (handle_token_moved (handle_token_moved demoStore ⟨some 5, 10, 20, some 90, none⟩ 7).1
        ⟨some 5, 10, 20, some 90, none⟩ 7).1 =
      (handle_token_moved demoStore ⟨some 5, 10, 20, some 90, none⟩ 7).1 :=
  C8_token_moved_idempotent demoStore ⟨some 5, 10, 20, some 90, none⟩ 7 5 demoToken
    rfl (by decide)

/-! ### Claims about the create handlers and scene visibility errors -/

lemma drawingCommitOk_eq_lookup (store : Store) (p : DrawingPayload) :
    drawingCommitOk store
        { id := store.nextDrawingId
          layer_id := p.layer_id
          type := p.type
          points := p.points
          color := p.color
          stroke_width := p.stroke_width } =
      (lookupLayer store p.layer_id).isSome := by
  rcases p.layer_id with _ | lid <;> simp [drawingCommitOk, lookupLayer]

lemma textCommitOk_eq_lookup (store : Store) (p : TextPayload) :
    textCommitOk store
        { id := store.nextTextId
          layer_id := p.layer_id
          x := p.x
          y := p.y
          text := p.text
          font_size := p.font_size
          color := p.color
          style := p.style } =
      (lookupLayer store p.layer_id).isSome := by
  rcases p.layer_id with _ | lid <;> simp [textCommitOk, lookupLayer]

/-- C10 as stated is false: for a `drawing_created` payload whose
`layer_id` dangles (99) and a `text_created` payload whose `layer_id` is
absent, the commit raises IntegrityError, so no row is created and nothing
is broadcast — the handlers do not unconditionally create and broadcast. -/
theorem C10_counterexample :
    ¬ (∃ st emits, handle_drawing_created demoStore
        ⟨some 99, "free", [], "#ffffff", 1⟩ 7 = .ok (st, emits))
    ∧ ¬ (∃ st emits, handle_text_created demoStore
        ⟨none, 0, 0, "hi", 12, "#000000", "normal"⟩ 7 = .ok (st, emits)) := by
  constructor
  · rintro ⟨st, emits, h⟩
    have hr : handle_drawing_created demoStore
        ⟨some 99, "free", [], "#ffffff", 1⟩ 7 = .error .integrityError := rfl
    rw [hr] at h
    exact Except.noConfusion h
  · rintro ⟨st, emits, h⟩
    have hr : handle_text_created demoStore
        ⟨none, 0, 0, "hi", 12, "#000000", "normal"⟩ 7 = .error .integrityError := rfl
    rw [hr] at h
    exact Except.noConfusion h

/-- C10 (amended): the `drawing_created` and `text_created` handlers
perform no application-level existence check on `layer_id` — they build
the row and attempt the insert for every payload.  When `layer_id` names
an existing layer, the row is created from the payload fields with a fresh
id and the payload plus that id is broadcast to all clients except the
sender.  When `layer_id` is absent or dangling, the NOT NULL/foreign-key
constraint makes the commit raise IntegrityError: no row is created and
nothing is broadcast (an unhandled error, not a handler-level silent
no-op). -/
theorem C10_create_handlers_db_constrained (store : Store) (pd : DrawingPayload)
    (pt : TextPayload) (sid : Nat) :
    ((lookupLayer store pd.layer_id).isSome = true →
      handle_drawing_created store pd sid =
        .ok ({ store with
                drawings := store.drawings ++
                  [{ id := store.nextDrawingId
                     layer_id := pd.layer_id
                     type := pd.type
                     points := pd.points
                     color := pd.color
                     stroke_width := pd.stroke_width }]
                nextDrawingId := store.nextDrawingId + 1 },
             [⟨.drawingCreated pd store.nextDrawingId, some sid⟩]))
    ∧ ((lookupLayer store pd.layer_id).isSome = false →
      handle_drawing_created store pd sid = .error .integrityError)
    ∧ ((lookupLayer store pt.layer_id).isSome = true →
      handle_text_created store pt sid =
        .ok ({ store with
                texts := store.texts ++
                  [{ id := store.nextTextId
                     layer_id := pt.layer_id
                     x := pt.x
                     y := pt.y
                     text := pt.text
                     font_size := pt.font_size
                     color := pt.color
                     style := pt.style }]
                nextTextId := store.nextTextId + 1 },
             [⟨.textCreated pt store.nextTextId, some sid⟩]))
    ∧ ((lookupLayer store pt.layer_id).isSome = false →
      handle_text_created store pt sid = .error .integrityError) := by
  refine ⟨?_, ?_, ?_, ?_⟩
  · intro h
    simp only [handle_drawing_created]
    rw [drawingCommitOk_eq_lookup, h, if_pos rfl]
  · intro h
    simp only [handle_drawing_created]
    rw [drawingCommitOk_eq_lookup, h, if_neg (by decide)]
  · intro h
    simp only [handle_text_created]
    rw [textCommitOk_eq_lookup, h, if_pos rfl]
  · intro h
    simp only [handle_text_created]
    rw [textCommitOk_eq_lookup, h, if_neg (by decide)]

theorem C10_witness :
    handle_drawing_created demoStore ⟨some 2, "free", [], "#ffffff", 1⟩ 7 =
      .ok ({ demoStore with
              drawings := demoStore.drawings ++
                [{ id := demoStore.nextDrawingId
                   layer_id := some 2
                   type := "free"
                   points := []
                   color := "#ffffff"
                   stroke_width := 1 }]
              nextDrawingId := demoStore.nextDrawingId + 1 },
           [⟨.drawingCreated ⟨some 2, "free", [], "#ffffff", 1⟩
               demoStore.nextDrawingId, some 7⟩])
    ∧ handle_drawing_created demoStore ⟨some 99, "free", [], "#ffffff", 1⟩ 7 =
        .error .integrityError
    ∧ handle_text_created demoStore ⟨some 2, 3, 4, "hi", 12, "#000000", "normal"⟩ 7 =
        .ok ({ demoStore with
                texts := demoStore.texts ++
                  [{ id := demoStore.nextTextId
                     layer_id := some 2
                     x := 3
                     y := 4
                     text := "hi"
                     font_size := 12
                     color := "#000000"
                     style := "normal" }]
                nextTextId := demoStore.nextTextId + 1 },
             [⟨.textCreated ⟨some 2, 3, 4, "hi", 12, "#000000", "normal"⟩
                 demoStore.nextTextId, some 7⟩])
    ∧ handle_text_created demoStore ⟨none, 0, 0, "hi", 12, "#000000", "normal"⟩ 7 =
        .error .integrityError :=
  ⟨(C10_create_handlers_db_constrained demoStore ⟨some 2, "free", [], "#ffffff", 1⟩
      ⟨some 2, 3, 4, "hi", 12, "#000000", "normal"⟩ 7).1 (by decide),
   (C10_create_handlers_db_constrained demoStore ⟨some 99, "free", [], "#ffffff", 1⟩
      ⟨some 2, 3, 4, "hi", 12, "#000000", "normal"⟩ 7).2.1 (by decide),
   (C10_create_handlers_db_constrained demoStore ⟨some 99, "free", [], "#ffffff", 1⟩
      ⟨some 2, 3, 4, "hi", 12, "#000000", "normal"⟩ 7).2.2.1 (by decide),
   (C10_create_handlers_db_constrained demoStore ⟨some 99, "free", [], "#ffffff", 1⟩
      ⟨none, 0, 0, "hi", 12, "#000000", "normal"⟩ 7).2.2.2 (by decide)⟩

/-- C3: for a non-admin requester, `GET /api/scenes/<id>` succeeds exactly
when the scene exists and is active; an existing inactive scene yields the
same 404 `NotFound` an absent scene yields (status-wise), and no request
ever yields a 403. -/
theorem C3_non_gm_scene_fetch_404 (store : Store) (role : String) (sid : Nat)
    (hrole : role ≠ "admin") :
    ((∃ d, get_scene store role sid = .ok d) ↔
      (∃ scene, store.scenes.find? (fun s => s.id == sid) = some scene ∧
        scene.active = true))
    ∧ (∀ scene, store.scenes.find? (fun s => s.id == sid) = some scene →
        scene.active = false →
        get_scene store role sid = .error ⟨404, "Scene not found"⟩)
    ∧ (∀ e, get_scene store role sid = .error e →
        e.status = 404 ∧ e.status ≠ 403) := by
  have hba : (role == "admin") = false := beq_eq_false_iff_ne.mpr hrole
  rcases hfind : store.scenes.find? (fun s => s.id == sid) with _ | scene
  · refine ⟨?_, ?_, ?_⟩
    · simp [get_scene, hfind]
    · intro scene h
      rw [hfind] at h
      exact Option.noConfusion h
    · intro e he
      rw [get_scene, hfind] at he
      cases he
      exact ⟨rfl, by decide⟩
  · cases hact : scene.active
    · refine ⟨?_, ?_, ?_⟩
      · simp [get_scene, hfind, bne, hba, hact]
      · intro scene' h _
        rw [get_scene, hfind]
        simp [bne, hba, hact]
      · intro e he
        rw [get_scene, hfind] at he
        simp only [bne, hba, hact] at he
        cases he
        exact ⟨rfl, by decide⟩
    · refine ⟨?_, ?_, ?_⟩
      · simp [get_scene, hfind, bne, hba, hact]
      · intro scene' h hfalse
        rw [hfind] at h
        cases h
        rw [hact] at hfalse
        cases hfalse
      · intro e he
        rw [get_scene, hfind] at he
        simp [bne, hba, hact] at he

theorem C3_witness :
    ((∃ d, get_scene demoStore "player" 1 = .ok d) ↔
      (∃ scene, demoStore.scenes.find? (fun s => s.id == 1) = some scene ∧
        scene.active = true))
    ∧ (∀ scene, demoStore.scenes.find? (fun s => s.id == 1) = some scene →
        scene.active = false →
        get_scene demoStore "player" 1 = .error ⟨404, "Scene not found"⟩)
    ∧ (∀ e, get_scene demoStore "player" 1 = .error e →
        e.status = 404 ∧ e.status ≠ 403) :=
  C3_non_gm_scene_fetch_404 demoStore "player" 1 (by decide)

/-! ### Claims about layer serialisation in `get_scene` -/

/-- The `get_scene` response for the demo store as seen by a player:
child keys are absent (`none`) on the non-player layers. -/
def demoDetail : SceneDetail :=
  { id := 1
    name := "Dungeon"
    thumbnail_path := none
    active := true
    layers := [
      { id := 1, name := "Background", order_index := 0, type := "background",
        visible := true, tokens := none, drawings := none, text_elements := none },
      { id := 2, name := "Player", order_index := 1, type := "player",
        visible := true, tokens := some [demoToken], drawings := some [],
        text_elements := some [] },
      { id := 3, name := "Foreground", order_index := 2, type := "custom",
        visible := true, tokens := none, drawings := none, text_elements := none }] }

/-- C1 as stated is false: for the player's fetch of the demo scene, the
non-player layers come back with their `tokens`/`drawings`/`text_elements`
keys absent, not present-and-empty. -/
theorem C1_counterexample :
    ¬ (∀ ld ∈ (match get_scene demoStore "player" 1 with
               | .ok d => d.layers
               | .error _ => []),
        ld.type ≠ "player" →
          ld.tokens = some [] ∧ ld.drawings = some [] ∧
            ld.text_elements = some []) := by
  decide

/-- C1 (amended): in a successful scene fetch the layer list serialises
every layer of the scene in order; a layer of type `player` — or any layer
when the requester is the gm — carries its full token/drawing/text detail,
while every other layer carries identity/metadata only, with the three
child collections omitted (absent), not present-and-empty. -/
theorem C1_layer_detail_by_type_and_role (store : Store) (role : String)
    (sid : Nat) (d : SceneDetail) (h : get_scene store role sid = .ok d) :
    d.layers = (sceneLayers store sid).map (buildLayerData store role)
    ∧ ∀ l ∈ sceneLayers store sid,
        (buildLayerData store role l).id = l.id ∧
        (buildLayerData store role l).name = l.name ∧
        (buildLayerData store role l).order_index = l.order_index ∧
        (buildLayerData store role l).type = l.type ∧
        (buildLayerData store role l).visible = l.visible ∧
        (if l.type = "player" ∨ role = "admin" then
          (buildLayerData store role l).tokens = some (layerTokens store l) ∧
          (buildLayerData store role l).drawings = some (layerDrawings store l) ∧
          (buildLayerData store role l).text_elements = some (layerTexts store l)
        else
          (buildLayerData store role l).tokens = none ∧
          (buildLayerData store role l).drawings = none ∧
          (buildLayerData store role l).text_elements = none) := by
  constructor
  · rcases hfind : store.scenes.find? (fun s => s.id == sid) with _ | scene
    · rw [get_scene, hfind] at h
      exact Except.noConfusion h
    · have hid : scene.id = sid := by
        have := List.find?_some hfind
        simpa using this
      simp only [get_scene, hfind] at h
      by_cases hc : (role != "admin" && !scene.active) = true
      · rw [if_pos hc] at h
        exact Except.noConfusion h
      · rw [if_neg hc] at h
        cases h
        rw [hid]
  · intro l _
    refine ⟨rfl, rfl, rfl, rfl, rfl, ?_⟩
    by_cases hinc : l.type = "player" ∨ role = "admin"
    · rw [if_pos hinc]
      have hb : includeChildren role l = true := by
        rcases hinc with h1 | h1 <;> simp [includeChildren, h1]
      exact ⟨by simp [buildLayerData, hb], by simp [buildLayerData, hb],
        by simp [buildLayerData, hb]⟩
    · rw [if_neg hinc]
      push_neg at hinc
      have hb : includeChildren role l = false := by
        simp [includeChildren, hinc.1, hinc.2]
      exact ⟨by simp [buildLayerData, hb], by simp [buildLayerData, hb],
        by simp [buildLayerData, hb]⟩

theorem C1_witness :
    demoDetail.layers = (sceneLayers demoStore 1).map (buildLayerData demoStore "player")
    ∧ ∀ l ∈ sceneLayers demoStore 1,
        (buildLayerData demoStore "player" l).id = l.id ∧
        (buildLayerData demoStore "player" l).name = l.name ∧
        (buildLayerData demoStore "player" l).order_index = l.order_index ∧
        (buildLayerData demoStore "player" l).type = l.type ∧
        (buildLayerData demoStore "player" l).visible = l.visible ∧
        (if l.type = "player" ∨ "player" = "admin" then
          (buildLayerData demoStore "player" l).tokens = some (layerTokens demoStore l) ∧
          (buildLayerData demoStore "player" l).drawings = some (layerDrawings demoStore l) ∧
          (buildLayerData demoStore "player" l).text_elements = some (layerTexts demoStore l)
        else
          (buildLayerData demoStore "player" l).tokens = none ∧
          (buildLayerData demoStore "player" l).drawings = none ∧
          (buildLayerData demoStore "player" l).text_elements = none) :=
  C1_layer_detail_by_type_and_role demoStore "player" 1 demoDetail rfl

/-! ### Child inclusion is independent of the `visible` flag -/

/-- Forget a layer's `visible` flag (normalise it to `true`). -/
def eraseVisible (l : Layer) : Layer :=
  { l with visible := true }

/-- Two stores that agree on everything except the `visible` flags of
their layers. -/
def storesEqExceptVisible (s1 s2 : Store) : Prop :=
  s1.scenes = s2.scenes ∧
  s1.layers.map eraseVisible = s2.layers.map eraseVisible ∧
  s1.tokens = s2.tokens ∧ s1.drawings = s2.drawings ∧ s1.texts = s2.texts

/-- The observable child-inclusion pattern of a scene fetch: for each
serialised layer, whether its `tokens` key is present. -/
def childInclusionFlags (store : Store) (role : String) (sid : Nat) :
    Option (List Bool) :=
  (get_scene store role sid).toOption.map (fun d => d.layers.map (fun ld => ld.tokens.isSome))

lemma get_scene_eq_none (store : Store) (role : String) (sid : Nat)
    (h : store.scenes.find? (fun s => s.id == sid) = none) :
    get_scene store role sid = .error ⟨404, "Not Found"⟩ := by
  rw [get_scene, h]

lemma get_scene_eq_some (store : Store) (role : String) (sid : Nat) (scene : Scene)
    (h : store.scenes.find? (fun s => s.id == sid) = some scene) :
    get_scene store role sid =
      if (role != "admin" && !scene.active) = true then
        .error ⟨404, "Scene not found"⟩
      else
        .ok { id := scene.id
              name := scene.name
              thumbnail_path := scene.thumbnail_path
              active := scene.active
              layers := (sceneLayers store scene.id).map (buildLayerData store role) } := by
  rw [get_scene, h]

lemma buildLayerData_tokens_isSome (store : Store) (role : String) (l : Layer) :
    (buildLayerData store role l).tokens.isSome = includeChildren role l := by
  rw [buildLayerData]
  cases h : includeChildren role l <;> simp [h]

lemma includeChildren_eraseVisible_congr (role : String) (a b : Layer)
    (h : eraseVisible a = eraseVisible b) :
    includeChildren role a = includeChildren role b := by
  have ht := congrArg Layer.type h
  rw [includeChildren, includeChildren, show a.type = b.type from ht]

lemma inclusion_flags_eq_of_eraseVisible (role : String) (scid : Nat)
    (l1 l2 : List Layer) (h : l1.map eraseVisible = l2.map eraseVisible) :
    (l1.filter (fun l => l.scene_id == scid)).map (includeChildren role) =
      (l2.filter (fun l => l.scene_id == scid)).map (includeChildren role) := by
  induction l1 generalizing l2 with
  | nil =>
    cases l2 with
    | nil => rfl
    | cons b bs => exact List.noConfusion h
  | cons a as ih =>
    cases l2 with
    | nil => exact List.noConfusion h
    | cons b bs =>
      rw [List.map_cons, List.map_cons] at h
      have hhead : eraseVisible a = eraseVisible b := (List.cons.injEq _ _ _ _ ▸ h).1
      have htail : as.map eraseVisible = bs.map eraseVisible :=
        (List.cons.injEq _ _ _ _ ▸ h).2
      have hsc' := congrArg Layer.scene_id hhead
      have hsc : a.scene_id = b.scene_id := show a.scene_id = b.scene_id from hsc'
      by_cases hkeep : a.scene_id = scid
      · rw [List.filter_cons_of_pos (by simpa using hkeep),
            List.filter_cons_of_pos (by simpa [← hsc] using hkeep),
            List.map_cons, List.map_cons,
            includeChildren_eraseVisible_congr role a b hhead, ih bs htail]
      · rw [List.filter_cons_of_neg (by simpa using hkeep),
            List.filter_cons_of_neg (by simpa [← hsc] using hkeep), ih bs htail]

lemma tokens_flags_eq (store store2 : Store) (role : String) (scid : Nat)
    (hlayers : store.layers.map eraseVisible = store2.layers.map eraseVisible) :
    ((sceneLayers store scid).map (buildLayerData store role)).map
        (fun ld => ld.tokens.isSome) =
      ((sceneLayers store2 scid).map (buildLayerData store2 role)).map
        (fun ld => ld.tokens.isSome) := by
  rw [List.map_map, List.map_map]
  have h1 : ((fun ld => ld.tokens.isSome) ∘ buildLayerData store role) =
      includeChildren role := by
    funext u
    exact buildLayerData_tokens_isSome store role u
  have h2 : ((fun ld => ld.tokens.isSome) ∘ buildLayerData store2 role) =
      includeChildren role := by
    funext u
    exact buildLayerData_tokens_isSome store2 role u
  rw [h1, h2, sceneLayers, sceneLayers]
  exact inclusion_flags_eq_of_eraseVisible role scid store.layers store2.layers hlayers

/-- C9: whether a layer's children are serialised depends only on the
layer's type and the requester's role — never on `visible`: the inclusion
guard ignores the flag, a `player` layer keeps full child detail even when
invisible, and stores differing only in visible flags produce identical
child-inclusion patterns for every requester and scene id. -/
theorem C9_child_inclusion_ignores_visible (store store2 : Store)
    (role : String) (sid : Nat) (l : Layer) (v : Bool)
    (heq : storesEqExceptVisible store store2) :
    includeChildren role { l with visible := v } = includeChildren role l
    ∧ (l.type = "player" →
        (buildLayerData store role l).tokens = some (layerTokens store l) ∧
        (buildLayerData store role l).drawings = some (layerDrawings store l) ∧
        (buildLayerData store role l).text_elements = some (layerTexts store l))
    ∧ childInclusionFlags store role sid = childInclusionFlags store2 role sid := by
  obtain ⟨hscenes, hlayers, htok, hdraw, htext⟩ := heq
  refine ⟨rfl, ?_, ?_⟩
  · intro hp
    have hb : includeChildren role l = true := by
      simp [includeChildren, hp]
    exact ⟨by simp [buildLayerData, hb], by simp [buildLayerData, hb],
      by simp [buildLayerData, hb]⟩
  · rw [childInclusionFlags, childInclusionFlags]
    rcases hfind : store.scenes.find? (fun s => s.id == sid) with _ | scene
    · have hfind2 : store2.scenes.find? (fun s => s.id == sid) = none := by
        rw [← hscenes]
        exact hfind
      rw [get_scene_eq_none store role sid hfind, get_scene_eq_none store2 role sid hfind2]
    · have hfind2 : store2.scenes.find? (fun s => s.id == sid) = some scene := by
        rw [← hscenes]
        exact hfind
      rw [get_scene_eq_some store role sid scene hfind,
          get_scene_eq_some store2 role sid scene hfind2]
      by_cases hc : (role != "admin" && !scene.active) = true
      · rw [if_pos hc, if_pos hc]
      · rw [if_neg hc, if_neg hc]
        simp only [Except.toOption, Option.map_some', Option.some.injEq]
        exact tokens_flags_eq store store2 role scene.id hlayers

/-- The demo store with the player layer's `visible` flag cleared. -/
def hiddenPlayerStore : Store :=
  { demoStore with
    layers := [
      { id := 1, scene_id := 1, name := "Background", order_index := 0,
        type := "background", visible := true },
      { id := 2, scene_id := 1, name := "Player", order_index := 1,
        type := "player", visible := false },
      { id := 3, scene_id := 1, name := "Foreground", order_index := 2,
        type := "custom", visible := true }] }

theorem C9_witness :
    includeChildren "player"
        { Layer.mk 2 1 "Player" 1 "player" false with visible := false } =
      includeChildren "player" (Layer.mk 2 1 "Player" 1 "player" false)
    ∧ ((Layer.mk 2 1 "Player" 1 "player" false).type = "player" →
        (buildLayerData hiddenPlayerStore "player"
            (Layer.mk 2 1 "Player" 1 "player" false)).tokens =
          some (layerTokens hiddenPlayerStore (Layer.mk 2 1 "Player" 1 "player" false)) ∧
        (buildLayerData hiddenPlayerStore "player"
            (Layer.mk 2 1 "Player" 1 "player" false)).drawings =
          some (layerDrawings hiddenPlayerStore (Layer.mk 2 1 "Player" 1 "player" false)) ∧
        (buildLayerData hiddenPlayerStore "player"
            (Layer.mk 2 1 "Player" 1 "player" false)).text_elements =
          some (layerTexts hiddenPlayerStore (Layer.mk 2 1 "Player" 1 "player" false)))
    ∧ childInclusionFlags hiddenPlayerStore "player" 1 =
        childInclusionFlags demoStore "player" 1 :=
  C9_child_inclusion_ignores_visible hiddenPlayerStore demoStore "player" 1
    (Layer.mk 2 1 "Player" 1 "player" false) false ⟨rfl, rfl, rfl, rfl, rfl⟩

/-! ### Scene creation -/

/-- C6: a successful scene creation (non-empty name, admin caller) adds
exactly three layers, all belonging to the new scene: background, player
and custom, at order indices 0, 1 and 2, and the new scene's
background/foreground layer references point to the first and the third of
them. -/
theorem C6_create_scene_three_default_layers (store : Store) (name : String)
    (uid : Nat) (p : Scene × Store)
    (hname : name ≠ "")
    (h : create_scene store name uid = .ok p)
    (hfresh : ∀ l ∈ store.layers, l.scene_id ≠ store.nextSceneId) :
    ∃ bg pl fg,
      sceneLayers p.2 p.1.id = [bg, pl, fg]
      ∧ p.2.layers = store.layers ++ [bg, pl, fg]
      ∧ bg.name = "Background" ∧ bg.type = "background" ∧ bg.order_index = 0
      ∧ bg.visible = true
      ∧ pl.name = "Player" ∧ pl.type = "player" ∧ pl.order_index = 1
      ∧ pl.visible = true
      ∧ fg.name = "Foreground" ∧ fg.type = "custom" ∧ fg.order_index = 2
      ∧ fg.visible = true
      ∧ p.1.background_layer_id = some bg.id
      ∧ p.1.foreground_layer_id = some fg.id
      ∧ p.1.name = name := by
  rw [create_scene, if_neg hname] at h
  cases h
  refine ⟨_, _, _, ?_, rfl, rfl, rfl, rfl, rfl, rfl, rfl, rfl, rfl, rfl, rfl,
    rfl, rfl, rfl, rfl, rfl⟩
  show (store.layers ++ _).filter _ = _
  rw [List.filter_append]
  have hnil : store.layers.filter (fun l => l.scene_id == store.nextSceneId) = [] := by
    rw [List.filter_eq_nil_iff]
    intro a ha
    simpa using hfresh a ha
  rw [hnil]
  simp

/-- The scene produced by creating "Cave" on top of the demo store. -/
def caveScene : Scene :=
  { id := 2, name := "Cave", thumbnail_path := none, active := false,
    owner_id := 1, background_layer_id := some 4, foreground_layer_id := some 6 }

/-- The store after creating "Cave" on top of the demo store. -/
def caveStore : Store :=
  { demoStore with
    scenes := demoStore.scenes ++ [caveScene]
    layers := demoStore.layers ++ [
      { id := 4, scene_id := 2, name := "Background", order_index := 0,
        type := "background", visible := true },
      { id := 5, scene_id := 2, name := "Player", order_index := 1,
        type := "player", visible := true },
      { id := 6, scene_id := 2, name := "Foreground", order_index := 2,
        type := "custom", visible := true }]
    nextSceneId := 3
    nextLayerId := 7 }

theorem C6_witness :
    ∃ bg pl fg,
      sceneLayers (caveScene, caveStore).2 (caveScene, caveStore).1.id = [bg, pl, fg]
      ∧ (caveScene, caveStore).2.layers = demoStore.layers ++ [bg, pl, fg]
      ∧ bg.name = "Background" ∧ bg.type = "background" ∧ bg.order_index = 0
      ∧ bg.visible = true
      ∧ pl.name = "Player" ∧ pl.type = "player" ∧ pl.order_index = 1
      ∧ pl.visible = true
      ∧ fg.name = "Foreground" ∧ fg.type = "custom" ∧ fg.order_index = 2
      ∧ fg.visible = true
      ∧ (caveScene, caveStore).1.background_layer_id = some bg.id
      ∧ (caveScene, caveStore).1.foreground_layer_id = some fg.id
      ∧ (caveScene, caveStore).1.name = "Cave" :=
  C6_create_scene_three_default_layers demoStore "Cave" 1 (caveScene, caveStore)
    (by decide) rfl (by decide)

/-! ### Scene activation -/

/-- The store component of a `POST /api/scenes/{id}/activate` request. -/
def activateStep (store : Store) (sid : Nat) : Store :=
  (activate_scene store sid).1

/-- Whether a scene with the given id exists in the store. -/
def existsScene (store : Store) (sid : Nat) : Bool :=
  (store.scenes.find? (fun s => s.id == sid)).isSome

/-- The at-most-one-active-scene invariant. -/
def atMostOneActive (store : Store) : Prop :=
  (store.scenes.filter (fun s => s.active)).length ≤ 1

lemma setFirstActive_map_id (l : List Scene) (sid : Nat) :
    (setFirstActive l sid).map Scene.id = l.map Scene.id := by
  induction l with
  | nil => rfl
  | cons s ss ih =>
    by_cases h : s.id = sid
    · rw [setFirstActive, if_pos (by simpa using h)]
      rfl
    · rw [setFirstActive, if_neg (by simpa using h), List.map_cons, List.map_cons, ih]

lemma clear_map_id (l : List Scene) :
    ((l.map (fun s => { s with active := false })).map Scene.id) = l.map Scene.id := by
  rw [List.map_map]
  rfl

lemma find?_isSome_congr_ids (i : Nat) (l1 l2 : List Scene)
    (h : l1.map Scene.id = l2.map Scene.id) :
    (l1.find? (fun s => s.id == i)).isSome = (l2.find? (fun s => s.id == i)).isSome := by
  induction l1 generalizing l2 with
  | nil =>
    cases l2 with
    | nil => rfl
    | cons b bs => exact List.noConfusion h
  | cons a as ih =>
    cases l2 with
    | nil => exact List.noConfusion h
    | cons b bs =>
      rw [List.map_cons, List.map_cons] at h
      have hhead : a.id = b.id := (List.cons.injEq _ _ _ _ ▸ h).1
      have htail : as.map Scene.id = bs.map Scene.id := (List.cons.injEq _ _ _ _ ▸ h).2
      by_cases hm : a.id = i
      · rw [List.find?_cons_of_pos _ (by simpa using hm),
            List.find?_cons_of_pos _ (by simpa [← hhead] using hm)]
        rfl
      · rw [List.find?_cons_of_neg _ (by simpa using hm),
            List.find?_cons_of_neg _ (by simpa [← hhead] using hm), ih bs htail]

lemma activateStep_scenes_of_found (store : Store) (sid : Nat) (scene : Scene)
    (hfind : store.scenes.find? (fun s => s.id == sid) = some scene) :
    (activateStep store sid).scenes =
      setFirstActive (store.scenes.map (fun s => { s with active := false })) sid := by
  rw [activateStep, activate_scene, hfind]

lemma activateStep_map_id (store : Store) (sid : Nat) :
    (activateStep store sid).scenes.map Scene.id = store.scenes.map Scene.id := by
  rcases hfind : store.scenes.find? (fun s => s.id == sid) with _ | scene
  · rw [activateStep, activate_scene, hfind]
  · rw [activateStep_scenes_of_found store sid scene hfind, setFirstActive_map_id,
        clear_map_id]

lemma existsScene_activateStep (store : Store) (j i : Nat) :
    existsScene (activateStep store j) i = existsScene store i := by
  rw [existsScene, existsScene]
  exact find?_isSome_congr_ids i _ _ (activateStep_map_id store j)

lemma existsScene_foldl (ids : List Nat) (store : Store) (i : Nat) :
    existsScene (ids.foldl activateStep store) i = existsScene store i := by
  induction ids generalizing store with
  | nil => rfl
  | cons j js ih =>
    rw [List.foldl_cons, ih, existsScene_activateStep]

lemma filter_active_setFirstActive (l : List Scene) (sid : Nat)
    (h : ∀ s ∈ l, s.active = false) :
    ((setFirstActive l sid).filter (fun s => s.active)).length ≤ 1 := by
  induction l with
  | nil => exact Nat.zero_le 1
  | cons s ss ih =>
    by_cases hm : s.id = sid
    · rw [setFirstActive, if_pos (by simpa using hm),
          List.filter_cons_of_pos (by simp)]
      have hnil : ss.filter (fun s => s.active) = [] := by
        rw [List.filter_eq_nil_iff]
        intro a ha
        simp [h a (List.mem_cons_of_mem s ha)]
      rw [hnil]
      exact Nat.le_refl 1
    · rw [setFirstActive, if_neg (by simpa using hm),
          List.filter_cons_of_neg (by simp [h s (List.mem_cons_self s ss)])]
      exact ih (fun a ha => h a (List.mem_cons_of_mem s ha))

lemma setFirstActive_mem_ne (l : List Scene) (sid : Nat)
    (h : ∀ s ∈ l, s.active = false) :
    ∀ s ∈ setFirstActive l sid, s.id ≠ sid → s.active = false := by
  induction l with
  | nil => intro s hs; exact absurd hs (by simp [setFirstActive])
  | cons t ts ih =>
    intro s hs hne
    by_cases hm : t.id = sid
    · rw [setFirstActive, if_pos (by simpa using hm)] at hs
      rcases List.mem_cons.mp hs with hhead | htail
      · exact absurd (hhead ▸ hm) hne
      · exact h s (List.mem_cons_of_mem t htail)
    · rw [setFirstActive, if_neg (by simpa using hm)] at hs
      rcases List.mem_cons.mp hs with hhead | htail
      · exact hhead ▸ h t (List.mem_cons_self t ts)
      · exact ih (fun a ha => h a (List.mem_cons_of_mem t ha)) s htail hne

lemma setFirstActive_exists (l : List Scene) (sid : Nat)
    (h : ∃ s ∈ l, s.id = sid) :
    ∃ s ∈ setFirstActive l sid, s.id = sid ∧ s.active = true := by
  induction l with
  | nil => obtain ⟨s, hs, _⟩ := h; exact absurd hs (List.not_mem_nil s)
  | cons t ts ih =>
    by_cases hm : t.id = sid
    · refine ⟨{ t with active := true }, ?_, hm, rfl⟩
      rw [setFirstActive, if_pos (by simpa using hm)]
      exact List.mem_cons_self _ _
    · obtain ⟨s, hs, hsid⟩ := h
      rcases List.mem_cons.mp hs with hhead | htail
      · exact absurd (hhead ▸ hsid) hm
      · obtain ⟨s', hs', hprops⟩ := ih ⟨s, htail, hsid⟩
        refine ⟨s', ?_, hprops⟩
        rw [setFirstActive, if_neg (by simpa using hm)]
        exact List.mem_cons_of_mem t hs'

/-- C2: a sequence of activations ending in the activation of an existing
scene leaves at most one scene active; moreover a single successful
activation deactivates every scene other than the target (clear-all, then
set-target) and leaves the target active. -/
theorem C2_at_most_one_active (store : Store) (ids : List Nat) (i : Nat)
    (hlive : existsScene store i = true) :
    atMostOneActive (activateStep (ids.foldl activateStep store) i)
    ∧ (∀ scene, store.scenes.find? (fun s => s.id == i) = some scene →
        (∀ s ∈ (activateStep store i).scenes, s.id ≠ i → s.active = false)
        ∧ (∃ s ∈ (activateStep store i).scenes, s.id = i ∧ s.active = true)) := by
  constructor
  · have hexists : existsScene (ids.foldl activateStep store) i = true := by
      rw [existsScene_foldl]
      exact hlive
    rw [existsScene] at hexists
    obtain ⟨scene, hfind⟩ := Option.isSome_iff_exists.mp hexists
    rw [atMostOneActive, activateStep_scenes_of_found _ i scene hfind]
    apply filter_active_setFirstActive
    intro s hs
    obtain ⟨t, _, ht⟩ := List.mem_map.mp hs
    rw [← ht]
  · intro scene hfind
    have hclear : ∀ s ∈ store.scenes.map (fun s => { s with active := false }),
        s.active = false := by
      intro s hs
      obtain ⟨t, _, ht⟩ := List.mem_map.mp hs
      rw [← ht]
    constructor
    · rw [activateStep_scenes_of_found store i scene hfind]
      exact setFirstActive_mem_ne _ i hclear
    · rw [activateStep_scenes_of_found store i scene hfind]
      apply setFirstActive_exists
      refine ⟨{ scene with active := false }, ?_, ?_⟩
      · exact List.mem_map_of_mem _ (List.mem_of_find?_eq_some hfind)
      · have := List.find?_some hfind
        simpa using this

theorem C2_witness :
    atMostOneActive (activateStep ([1].foldl activateStep demoStore) 1)
    ∧ (∀ scene, demoStore.scenes.find? (fun s => s.id == 1) = some scene →
        (∀ s ∈ (activateStep demoStore 1).scenes, s.id ≠ 1 → s.active = false)
        ∧ (∃ s ∈ (activateStep demoStore 1).scenes, s.id = 1 ∧ s.active = true)) :=
  C2_at_most_one_active demoStore [1] 1 (by decide)

/-! ### Authentication failure indistinguishability -/

/-- C7: whether the username does not exist or the password is wrong for an
existing user, `authenticate_user` returns the same `none` and the login
route the same `401 Invalid credentials` response, for every verifier: the
two failure causes are indistinguishable to the caller. -/
theorem C7_auth_failures_indistinguishable (verify : String → String → Bool)
    (users1 users2 : List User) (u1 p1 u2 p2 : String) (usr : User)
    (h1 : users1.find? (fun u => u.username == u1) = none)
    (h2 : users2.find? (fun u => u.username == u2) = some usr)
    (h3 : verify p2 usr.password_hash = false)
    (hu1 : u1 ≠ "") (hp1 : p1 ≠ "") (hu2 : u2 ≠ "") (hp2 : p2 ≠ "") :
    authenticate_user verify users1 u1 p1 = none
    ∧ authenticate_user verify users2 u2 p2 = none
    ∧ login verify users1 u1 p1 = login verify users2 u2 p2
    ∧ login verify users1 u1 p1 = (401, .failure "Invalid credentials") := by
  have ha1 : authenticate_user verify users1 u1 p1 = none := by
    rw [authenticate_user, h1]
  have ha2 : authenticate_user verify users2 u2 p2 = none := by
    rw [authenticate_user, h2]
    simp [h3]
  have hl1 : login verify users1 u1 p1 = (401, .failure "Invalid credentials") := by
    rw [login, if_neg (by simp [hu1, hp1]), ha1]
  have hl2 : login verify users2 u2 p2 = (401, .failure "Invalid credentials") := by
    rw [login, if_neg (by simp [hu2, hp2]), ha2]
  exact ⟨ha1, ha2, hl1.trans hl2.symm, hl1⟩

/-- A one-user credential table for the login fixtures. -/
def demoUsers : List User :=
  [{ id := 1, username := "alice", password_hash := "hash-of-secret",
     role := "player", registered_by := none }]

theorem C7_witness :
    authenticate_user (fun p h => p == h) demoUsers "bob" "guess" = none
    ∧ authenticate_user (fun p h => p == h) demoUsers "alice" "wrong" = none
    ∧ login (fun p h => p == h) demoUsers "bob" "guess" =
        login (fun p h => p == h) demoUsers "alice" "wrong"
    ∧ login (fun p h => p == h) demoUsers "bob" "guess" =
        (401, .failure "Invalid credentials") :=
  C7_auth_failures_indistinguishable (fun p h => p == h) demoUsers demoUsers
    "bob" "guess" "alice" "wrong"
    ({ id := 1, username := "alice", password_hash := "hash-of-secret",
       role := "player", registered_by := none })
    (by decide) (by decide) (by decide)
    (by decide) (by decide) (by decide) (by decide)

end DmaVtt
